import Mathlib

/-!
Verification of the GELF encoding and UDP chunking subsystem of
`python-graylog` (files `graylog/handlers.py`, `graylog/udp.py`,
`graylog/tls.py`), as a shallow embedding in Lean.

Modelling conventions:
* byte strings are `List Nat` (each element a byte value);
* Python text is `String`, except where character-level slicing matters
  (`short_message` truncation), where it is `List Char`;
* the external library functions `zlib.compress`/`zlib.decompress` and
  `json.loads` are not part of this repository: the chunkers are modelled on
  the `compress=False` configuration, with the JSON parse of a packed message
  abstracted as a `parse` parameter, and the GELF packer (a constructor
  parameter `gelf_packer` of `GELFTruncatingChunker` in the source) abstracted
  as a `packer` parameter;
* generator functions yield eagerly: a chunker run is denoted by the pair of
  the list of warnings it issues and the list of chunks it emits, in order.
-/

namespace Graylog

/-- Default chunk size `WAN_CHUNK` (handlers.py line 19). -/
def WAN_CHUNK : Nat := 1420

/-- Chunk-count ceiling `GELF_MAX_CHUNK_NUMBER` (handlers.py line 47). -/
def GELF_MAX_CHUNK_NUMBER : Nat := 128

/-- The fixed severity table `SYSLOG_LEVELS` (handlers.py lines 39-45) combined
with Python `dict.get(key, default)` as used at handlers.py line 150.
`logging.CRITICAL = 50`, `ERROR = 40`, `WARNING = 30`, `INFO = 20`,
`DEBUG = 10`. -/
def SYSLOG_LEVELS_get (levelno dflt : Int) : Int :=
  if levelno = 50 then 2
  else if levelno = 40 then 3
  else if levelno = 30 then 4
  else if levelno = 20 then 6
  else if levelno = 10 then 7
  else dflt

/-- Python truthiness of an optional string attribute: `None` and the empty
string are falsy, any other string is truthy. -/
def pyStrTruthy : Option String → Bool
  | none => false
  | some s => decide (s ≠ "")

/-- The slice of a `logging.LogRecord` that the embedded fragments of
`BaseGELFHandler._make_gelf_dict` read: the numeric level, the formatted
traceback of `exc_info` when `exc_info` is present (`some fmt` stands for
a non-`None` `exc_info` whose `"\n".join(traceback.format_exception(*...))`
is `fmt`), and the pre-formatted `exc_text`. -/
structure LogRecord where
  levelno : Int
  exc_fmt : Option String
  exc_text : Option String

/-- The fields of the GELF dictionary built by `_make_gelf_dict` that the
claims reason about. -/
structure GELFDictCore where
  level : Int
  full_message : Option String

/-- Embedding of `BaseGELFHandler._add_full_message` (handlers.py lines
204-226): start with `None`; if `exc_info` is truthy take the joined
formatted exception; if `exc_text` is truthy it overrides; store the result
only if it is truthy. Returns the value of the `full_message` key
(`none` = key absent). -/
def add_full_message (r : LogRecord) : Option String :=
  let full_message : Option String :=
    match r.exc_fmt with
    | some fmt => some fmt
    | none => none
  let full_message : Option String :=
    if pyStrTruthy r.exc_text then r.exc_text else full_message
  if pyStrTruthy full_message then full_message else none

/-- Embedding of the `level` / `full_message` fields of
`BaseGELFHandler._make_gelf_dict` (handlers.py lines 150 and 155):
`"level": SYSLOG_LEVELS.get(record.levelno, record.levelno)` and the
`_add_full_message` update. -/
def make_gelf_dict_core (r : LogRecord) : GELFDictCore :=
  { level := SYSLOG_LEVELS_get r.levelno r.levelno,
    full_message := add_full_message r }

/-- Embedding of `BaseGELFChunker._message_chunk_number` (handlers.py lines
414-420): `int(math.ceil(len(message) * 1.0 / chunk_size))`, i.e. the ceiling
of `len / chunk_size`, written with exact natural arithmetic
(for `0 < chunk_size` this equals the ceiling; Python raises on
`chunk_size = 0`). -/
def message_chunk_number (chunk_size : Nat) (message : List Nat) : Nat :=
  (message.length + chunk_size - 1) / chunk_size

/-- Embedding of `struct.pack("Q", message_id)` (handlers.py line 427): the
eight bytes of the 64-bit message identifier, least significant first. -/
def packQ (message_id : Nat) : List Nat :=
  (List.range 8).map (fun i => message_id / 256 ^ i % 256)

/-- Embedding of `BaseGELFChunker._encode` (handlers.py lines 422-432):
`b"\x1e\x0f" + struct.pack("Q", message_id) + struct.pack("B", chunk_seq)
+ struct.pack("B", total_chunks) + chunk`. At every call site
`chunk_seq < total_chunks ≤ 128`, so the two single-byte `struct.pack("B", _)`
fields are the values themselves. -/
def gelf_chunk_encode (message_id chunk_seq total_chunks : Nat)
    (chunk : List Nat) : List Nat :=
  [0x1e, 0x0f] ++ packQ message_id ++ [chunk_seq] ++ [total_chunks] ++ chunk

/-- The slice generator of `_gen_gelf_chunks` (handlers.py lines 445-450):
`message[i:i + chunk_size] for i in range(0, len(message), chunk_size)`.
`range(0, len, S)` enumerates `k * S` for `k < ceil(len / S)`. -/
def message_slices (chunk_size : Nat) (message : List Nat) : List (List Nat) :=
  (List.range (message_chunk_number chunk_size message)).map
    (fun k => (message.drop (k * chunk_size)).take chunk_size)

/-- Embedding of `BaseGELFChunker._gen_gelf_chunks` (handlers.py lines
434-451) at a given draw `message_id` of
`random.randint(0, 0xFFFFFFFFFFFFFFFF)`: `enumerate` pairs each slice
`message[k*S : k*S + S]` with its sequence number `k`, and each pair is
framed by `_encode`. -/
def gen_gelf_chunks (chunk_size message_id : Nat) (message : List Nat) :
    List (List Nat) :=
  (List.range (message_chunk_number chunk_size message)).map
    (fun sequence =>
      gelf_chunk_encode message_id sequence
        (message_chunk_number chunk_size message)
        ((message.drop (sequence * chunk_size)).take chunk_size))

/-- The two observable warning kinds of the chunkers: handlers.py lines
470-471 (`GELFChunkOverflowWarning`) and 493-495
(`GELFTruncationFailureWarning`). -/
inductive GELFWarningKind where
  | chunkOverflow : GELFWarningKind
  | truncationFailure : GELFWarningKind
deriving DecidableEq

/-- Embedding of `BaseGELFChunker.chunk_message` (handlers.py lines 453-467):
silently drop (no warning, no chunks) when the chunk number exceeds
`GELF_MAX_CHUNK_NUMBER`, else emit the generated chunks. The pair is
(warnings issued, chunks emitted); this method calls `warnings.warn`
nowhere, so the first component is always `[]`. -/
def BaseGELFChunker_chunk_message (chunk_size message_id : Nat)
    (message : List Nat) : List GELFWarningKind × List (List Nat) :=
  if message_chunk_number chunk_size message > GELF_MAX_CHUNK_NUMBER then
    ([], [])
  else
    ([], gen_gelf_chunks chunk_size message_id message)

/-- Embedding of `GELFWarningChunker.chunk_message` (handlers.py lines
477-490): one `GELFChunkOverflowWarning` and no chunks on overflow, else the
generated chunks. -/
def GELFWarningChunker_chunk_message (chunk_size message_id : Nat)
    (message : List Nat) : List GELFWarningKind × List (List Nat) :=
  if message_chunk_number chunk_size message > GELF_MAX_CHUNK_NUMBER then
    ([GELFWarningKind.chunkOverflow], [])
  else
    ([], gen_gelf_chunks chunk_size message_id message)

/-- The fields of the original GELF document that
`GELFTruncatingChunker.gen_chunk_overflow_gelf_log` reads back out of
`json.loads(message.decode("UTF-8"))` (handlers.py line 536). `short_message`
is kept at character granularity because the truncation slices characters;
`timestamp` is copied verbatim and never computed with, so its value type is
opaque here. -/
structure GELFParsedDoc where
  version : String
  host : String
  short_message : List Char
  timestamp : Int
  facility : String

/-- The simplified GELF dictionary literal of handlers.py lines 539-547. -/
structure SimplifiedGELFDoc where
  version : String
  host : String
  short_message : List Char
  timestamp : Int
  level : Int
  facility : String
  chunk_overflow : Bool

/-- Embedding of the `simplified_gelf_dict` literal (handlers.py lines
539-547): copy `version`, `host`, `timestamp`, `facility`; empty
`short_message`; `level = SYSLOG_LEVELS.get(logging.ERROR, logging.ERROR)`
with `logging.ERROR = 40`; marker `"_chunk_overflow": True`. -/
def mk_simplified_gelf_dict (g : GELFParsedDoc) : SimplifiedGELFDoc :=
  { version := g.version,
    host := g.host,
    short_message := [],
    timestamp := g.timestamp,
    level := SYSLOG_LEVELS_get 40 40,
    facility := g.facility,
    chunk_overflow := true }

/-- Python slice `s[:c]` on a character list, for a possibly negative
bound `c`: a negative bound counts from the end, clamped at 0. -/
def pySliceUpto (s : List Char) (c : Int) : List Char :=
  if c < 0 then s.take ((s.length : Int) + c).toNat else s.take c.toNat

/-- The free-chunk estimate `gelf_chunks_free` of handlers.py lines 549-555
(`compress=False` configuration, so the repacked simplified envelope is
`self.gelf_packer(simplified_gelf_dict)` itself):
`GELF_MAX_CHUNK_NUMBER - self._message_chunk_number(...)`, as a signed
integer since the envelope alone may exceed the ceiling. -/
def gelf_chunks_free (chunk_size : Nat) (packer : SimplifiedGELFDoc → List Nat)
    (g : GELFParsedDoc) : Int :=
  (GELF_MAX_CHUNK_NUMBER : Int)
    - (message_chunk_number chunk_size (packer (mk_simplified_gelf_dict g)) : Int)

/-- The initial candidate text `truncated_short_message` of handlers.py lines
556-558: `gelf_dict["short_message"][: self.chunk_size * gelf_chunks_free]`. -/
def initial_truncated_short_message (chunk_size : Nat)
    (packer : SimplifiedGELFDoc → List Nat) (g : GELFParsedDoc) : List Char :=
  pySliceUpto g.short_message ((chunk_size : Int) * gelf_chunks_free chunk_size packer g)

/-- The retry loop of handlers.py lines 559-573: `for clip in
range(gelf_chunks_free, -1, -1)` runs `max(gelf_chunks_free + 1, 0)`
iterations; each iteration repacks the simplified dictionary with the current
candidate text, returns it if its chunk number is within the ceiling, and
otherwise shrinks the candidate by `chunk_size` characters
(`truncated_short_message[: -self.chunk_size]`); falling off the loop raises
`GELFTruncationFailureWarning` (modelled as `none`). -/
def truncation_loop (chunk_size : Nat) (packer : SimplifiedGELFDoc → List Nat)
    (base : SimplifiedGELFDoc) : Nat → List Char → Option (List Nat)
  | 0, _ => none
  | fuel + 1, truncated =>
    if message_chunk_number chunk_size (packer { base with short_message := truncated })
        ≤ GELF_MAX_CHUNK_NUMBER then
      some (packer { base with short_message := truncated })
    else
      truncation_loop chunk_size packer base fuel
        (truncated.take (truncated.length - chunk_size))

/-- Embedding of `GELFTruncatingChunker.gen_chunk_overflow_gelf_log`
(handlers.py lines 522-573) in the `compress=False` configuration, with the
already parsed original document `g` standing for
`json.loads(message.decode("UTF-8"))`. `some` is a successful return,
`none` is the `raise GELFTruncationFailureWarning`. -/
def gen_chunk_overflow_gelf_log (chunk_size : Nat)
    (packer : SimplifiedGELFDoc → List Nat) (g : GELFParsedDoc) :
    Option (List Nat) :=
  truncation_loop chunk_size packer (mk_simplified_gelf_dict g)
    (gelf_chunks_free chunk_size packer g + 1).toNat
    (initial_truncated_short_message chunk_size packer g)

/-- Embedding of `GELFTruncatingChunker.chunk_message` (handlers.py lines
575-598), `compress=False`, with `parse` standing for
`json.loads(message.decode("UTF-8"))`: on overflow, warn, then either chunk
the truncated replacement or (when truncation fails) warn again and drop. -/
def GELFTruncatingChunker_chunk_message (chunk_size : Nat)
    (packer : SimplifiedGELFDoc → List Nat) (parse : List Nat → GELFParsedDoc)
    (message_id : Nat) (message : List Nat) :
    List GELFWarningKind × List (List Nat) :=
  if message_chunk_number chunk_size message > GELF_MAX_CHUNK_NUMBER then
    match gen_chunk_overflow_gelf_log chunk_size packer (parse message) with
    | some m => ([GELFWarningKind.chunkOverflow], gen_gelf_chunks chunk_size message_id m)
    | none => ([GELFWarningKind.chunkOverflow, GELFWarningKind.truncationFailure], [])
  else
    ([], gen_gelf_chunks chunk_size message_id message)

/-- The two possible actions of `GELFUDPHandler.send` (udp.py lines 32-37):
hand the bytes unframed to `DatagramHandler.send`, or send each chunk
produced by the chunker (the default chunker of udp.py line 9 is
`GELFWarningChunker()`). -/
inductive UDPSendAction where
  | unframed : List Nat → UDPSendAction
  | chunked : List GELFWarningKind × List (List Nat) → UDPSendAction
deriving DecidableEq

/-- Embedding of `GELFUDPHandler.send` (udp.py lines 32-37) with the default
`GELFWarningChunker`: `if len(s) < self.gelf_chunker.chunk_size` send
unframed, else send the chunker's chunks. -/
def GELFUDPHandler_send (chunk_size message_id : Nat) (s : List Nat) :
    UDPSendAction :=
  if s.length < chunk_size then
    UDPSendAction.unframed s
  else
    UDPSendAction.chunked (GELFWarningChunker_chunk_message chunk_size message_id s)

/-- Embedding of the configuration check of `BaseGELFHandler.__init__`
(handlers.py lines 107-108): `if fqdn and localname: raise ValueError(...)`.
`localname` is truthy exactly when it is a non-`None`, non-empty string. -/
def BaseGELFHandler_init_check (fqdn : Bool) (localname : Option String) :
    Except String Unit :=
  if fqdn && pyStrTruthy localname then
    Except.error "cannot specify fqdn and localname arguments together"
  else
    Except.ok ()

/-- Embedding of the configuration checks of `GELFTLSHandler.__init__`
(tls.py lines 43-47): `if validate and ca_certs is None: raise ValueError`,
then `if keyfile is not None and certfile is None: raise ValueError`. -/
def GELFTLSHandler_init_check (validate : Bool)
    (ca_certs certfile keyfile : Option String) : Except String Unit :=
  if validate && ca_certs.isNone then
    Except.error "CA bundle file path must be specified"
  else if keyfile.isSome && certfile.isNone then
    Except.error "certfile must be specified"
  else
    Except.ok ()

/-! ### Helper lemmas on the chunk codec -/

theorem packQ_expand (n : Nat) :
    packQ n = [n / 256 ^ 0 % 256, n / 256 ^ 1 % 256, n / 256 ^ 2 % 256,
      n / 256 ^ 3 % 256, n / 256 ^ 4 % 256, n / 256 ^ 5 % 256,
      n / 256 ^ 6 % 256, n / 256 ^ 7 % 256] := rfl

theorem packQ_length (n : Nat) : (packQ n).length = 8 := by
  rw [packQ_expand]; rfl

theorem packQ_bytes (n : Nat) : ∀ b ∈ packQ n, b < 256 := by
  rw [packQ_expand]
  intro b hb
  simp only [List.mem_cons, List.not_mem_nil, or_false] at hb
  rcases hb with h | h | h | h | h | h | h | h <;>
    exact h ▸ Nat.mod_lt _ (by norm_num)

theorem gelf_chunk_encode_getq10 (mid seq tot : Nat) (c : List Nat) :
    (gelf_chunk_encode mid seq tot c).get? 10 = some seq := by
  rw [gelf_chunk_encode, packQ_expand]; rfl

theorem gelf_chunk_encode_getq11 (mid seq tot : Nat) (c : List Nat) :
    (gelf_chunk_encode mid seq tot c).get? 11 = some tot := by
  rw [gelf_chunk_encode, packQ_expand]; rfl

theorem gelf_chunk_encode_take2 (mid seq tot : Nat) (c : List Nat) :
    (gelf_chunk_encode mid seq tot c).take 2 = [0x1e, 0x0f] := by
  rw [gelf_chunk_encode, packQ_expand]; rfl

theorem gelf_chunk_encode_drop2_take8 (mid seq tot : Nat) (c : List Nat) :
    ((gelf_chunk_encode mid seq tot c).drop 2).take 8 = packQ mid := by
  rw [gelf_chunk_encode, packQ_expand]; rfl

theorem gelf_chunk_encode_drop12 (mid seq tot : Nat) (c : List Nat) :
    (gelf_chunk_encode mid seq tot c).drop 12 = c := by
  rw [gelf_chunk_encode, packQ_expand]; rfl

theorem gelf_chunk_encode_length (mid seq tot : Nat) (c : List Nat) :
    (gelf_chunk_encode mid seq tot c).length = c.length + 12 := by
  rw [gelf_chunk_encode, packQ_expand]
  simp [List.length_append]

theorem message_chunk_number_nil (S : Nat) : message_chunk_number S [] = 0 := by
  unfold message_chunk_number
  simp only [List.length_nil, Nat.zero_add]
  rcases Nat.eq_zero_or_pos S with h | h
  · subst h; rfl
  · exact Nat.div_eq_of_lt (by omega)

theorem message_chunk_number_pos (S : Nat) (hS : 0 < S) (msg : List Nat)
    (h : msg ≠ []) : 0 < message_chunk_number S msg := by
  unfold message_chunk_number
  have hL : 0 < msg.length := List.length_pos.mpr h
  exact Nat.div_pos (by omega) hS

theorem message_chunk_number_drop (S : Nat) (hS : 0 < S) (msg : List Nat)
    (h : msg ≠ []) :
    message_chunk_number S msg = message_chunk_number S (msg.drop S) + 1 := by
  unfold message_chunk_number
  rw [List.length_drop]
  have hL : 0 < msg.length := List.length_pos.mpr h
  set L := msg.length with hLdef
  rcases Nat.le_total S L with hSL | hLS
  · have h1 : L - S + S - 1 = L - 1 := by omega
    have h2 : L + S - 1 = L - 1 + S := by omega
    rw [h1, h2, Nat.add_div_right _ hS]
  · have h1 : L - S = 0 := by omega
    have h2 : (S - 1) / S = 0 := Nat.div_eq_of_lt (by omega)
    rw [h1, Nat.zero_add, h2]
    have h3 : L + S - 1 = L - 1 + S := by omega
    have h4 : (L - 1) / S = 0 := Nat.div_eq_of_lt (by omega)
    rw [h3, Nat.add_div_right _ hS, h4]

theorem message_slices_bound (S : Nat) (msg : List Nat) :
    ∀ c ∈ message_slices S msg, c.length ≤ S := by
  intro c hc
  rw [message_slices] at hc
  obtain ⟨k, _, rfl⟩ := List.mem_map.mp hc
  rw [List.length_take]
  exact min_le_left _ _

theorem message_slices_nil (S : Nat) : message_slices S [] = [] := by
  rw [message_slices, message_chunk_number_nil]
  rfl

theorem message_slices_cons (S : Nat) (hS : 0 < S) (msg : List Nat)
    (h : msg ≠ []) :
    message_slices S msg = msg.take S :: message_slices S (msg.drop S) := by
  rw [message_slices, message_slices,
    message_chunk_number_drop S hS msg h, List.range_succ_eq_map,
    List.map_cons, List.map_map]
  congr 1
  · simp
  · apply List.map_congr_left
    intro k _
    simp only [Function.comp_apply, List.drop_drop]
    congr 1
    rw [Nat.succ_mul, Nat.add_comm]

theorem message_slices_flatten (S : Nat) (hS : 0 < S) :
    ∀ (n : Nat) (msg : List Nat), msg.length ≤ n →
      (message_slices S msg).flatten = msg := by
  intro n
  induction n with
  | zero =>
    intro msg hmsg
    have : msg = [] := List.length_eq_zero.mp (Nat.le_zero.mp hmsg)
    subst this
    rw [message_slices_nil]
    rfl
  | succ n ih =>
    intro msg hmsg
    rcases eq_or_ne msg [] with h | h
    · subst h; rw [message_slices_nil]; rfl
    · rw [message_slices_cons S hS msg h, List.flatten_cons,
        ih (msg.drop S) (by rw [List.length_drop]; omega)]
      exact List.take_append_drop S msg

theorem gen_gelf_chunks_length (S mid : Nat) (msg : List Nat) :
    (gen_gelf_chunks S mid msg).length = message_chunk_number S msg := by
  rw [gen_gelf_chunks]
  simp

theorem gen_gelf_chunks_getElem (S mid : Nat) (msg : List Nat) (k : Nat)
    (hk : k < (gen_gelf_chunks S mid msg).length) :
    (gen_gelf_chunks S mid msg)[k] =
      gelf_chunk_encode mid k (message_chunk_number S msg)
        ((msg.drop (k * S)).take S) := by
  simp [gen_gelf_chunks]

theorem gen_gelf_chunks_payloads (S mid : Nat) (msg : List Nat) :
    (gen_gelf_chunks S mid msg).map (fun c => c.drop 12)
      = message_slices S msg := by
  rw [gen_gelf_chunks, message_slices, List.map_map]
  apply List.map_congr_left
  intro k _
  simp only [Function.comp_apply]
  exact gelf_chunk_encode_drop12 _ _ _ _

theorem gen_gelf_chunks_mem (S mid : Nat) (msg : List Nat) (c : List Nat)
    (hc : c ∈ gen_gelf_chunks S mid msg) :
    ∃ seq, seq < message_chunk_number S msg
      ∧ c = gelf_chunk_encode mid seq (message_chunk_number S msg)
          ((msg.drop (seq * S)).take S) := by
  rw [gen_gelf_chunks] at hc
  obtain ⟨k, hk, rfl⟩ := List.mem_map.mp hc
  exact ⟨k, List.mem_range.mp hk, rfl⟩

/-! ### Helper lemmas on the truncation loop -/

/-- The candidate text tried at iteration `j` of the truncation retry loop:
the initial candidate with `j` times `chunk_size` characters removed from
its end. -/
def trunc_candidate (init : List Char) (chunk_size j : Nat) : List Char :=
  init.take (init.length - j * chunk_size)

theorem trunc_candidate_zero (init : List Char) (S : Nat) :
    trunc_candidate init S 0 = init := by
  simp [trunc_candidate]

theorem trunc_candidate_shift (init : List Char) (S j : Nat) :
    trunc_candidate (init.take (init.length - S)) S j
      = trunc_candidate init S (j + 1) := by
  unfold trunc_candidate
  rw [List.take_take, List.length_take]
  congr 1
  rw [Nat.succ_mul]
  generalize init.length = L
  generalize j * S = t
  omega

theorem truncation_loop_some_iff (S : Nat) (packer : SimplifiedGELFDoc → List Nat)
    (base : SimplifiedGELFDoc) :
    ∀ (fuel : Nat) (init : List Char) (p : List Nat),
      (truncation_loop S packer base fuel init = some p ↔
        ∃ j, j < fuel
          ∧ p = packer { base with short_message := trunc_candidate init S j }
          ∧ message_chunk_number S p ≤ GELF_MAX_CHUNK_NUMBER
          ∧ ∀ i, i < j → GELF_MAX_CHUNK_NUMBER < message_chunk_number S
              (packer { base with short_message := trunc_candidate init S i })) := by
  intro fuel
  induction fuel with
  | zero =>
    intro init p
    simp [truncation_loop]
  | succ fuel ih =>
    intro init p
    rw [truncation_loop]
    by_cases hok : message_chunk_number S
        (packer { base with short_message := init }) ≤ GELF_MAX_CHUNK_NUMBER
    · rw [if_pos hok]
      constructor
      · intro hp
        obtain rfl : packer { base with short_message := init } = p :=
          Option.some.inj hp
        exact ⟨0, Nat.succ_pos fuel, by rw [trunc_candidate_zero], hok,
          fun i hi => absurd hi (Nat.not_lt_zero i)⟩
      · rintro ⟨j, hj, rfl, hle, hprev⟩
        rcases Nat.eq_zero_or_pos j with rfl | hjpos
        · rw [trunc_candidate_zero]
        · exact absurd hok (Nat.not_le.mpr (by
            have := hprev 0 hjpos
            rwa [trunc_candidate_zero] at this))
    · rw [if_neg hok, ih]
      constructor
      · rintro ⟨j, hj, rfl, hle, hprev⟩
        refine ⟨j + 1, Nat.succ_lt_succ hj, ?_, ?_, ?_⟩
        · rw [trunc_candidate_shift]
        · exact hle
        · intro i hi
          rcases Nat.eq_zero_or_pos i with rfl | hipos
          · rw [trunc_candidate_zero]
            exact Nat.not_le.mp hok
          · obtain ⟨i, rfl⟩ := Nat.exists_eq_succ_of_ne_zero (Nat.pos_iff_ne_zero.mp hipos)
            rw [← trunc_candidate_shift]
            exact hprev i (Nat.lt_of_succ_lt_succ hi)
      · rintro ⟨j, hj, rfl, hle, hprev⟩
        rcases Nat.eq_zero_or_pos j with rfl | hjpos
        · rw [trunc_candidate_zero] at hle
          exact absurd hle hok
        · obtain ⟨j, rfl⟩ := Nat.exists_eq_succ_of_ne_zero (Nat.pos_iff_ne_zero.mp hjpos)
          refine ⟨j, Nat.lt_of_succ_lt_succ hj, ?_, ?_, ?_⟩
          · rw [trunc_candidate_shift]
          · exact hle
          · intro i hi
            rw [trunc_candidate_shift]
            exact hprev (i + 1) (Nat.succ_lt_succ hi)

theorem truncation_loop_none_iff (S : Nat) (packer : SimplifiedGELFDoc → List Nat)
    (base : SimplifiedGELFDoc) :
    ∀ (fuel : Nat) (init : List Char),
      (truncation_loop S packer base fuel init = none ↔
        ∀ j, j < fuel → GELF_MAX_CHUNK_NUMBER < message_chunk_number S
          (packer { base with short_message := trunc_candidate init S j })) := by
  intro fuel
  induction fuel with
  | zero =>
    intro init
    simp [truncation_loop]
  | succ fuel ih =>
    intro init
    rw [truncation_loop]
    by_cases hok : message_chunk_number S
        (packer { base with short_message := init }) ≤ GELF_MAX_CHUNK_NUMBER
    · rw [if_pos hok]
      constructor
      · intro h
        exact absurd h (Option.some_ne_none _)
      · intro hall
        have := hall 0 (Nat.succ_pos fuel)
        rw [trunc_candidate_zero] at this
        exact absurd hok (Nat.not_le.mpr this)
    · rw [if_neg hok, ih]
      constructor
      · intro hall j hj
        rcases Nat.eq_zero_or_pos j with rfl | hjpos
        · rw [trunc_candidate_zero]
          exact Nat.not_le.mp hok
        · obtain ⟨j, rfl⟩ := Nat.exists_eq_succ_of_ne_zero (Nat.pos_iff_ne_zero.mp hjpos)
          rw [← trunc_candidate_shift]
          exact hall j (Nat.lt_of_succ_lt_succ hj)
      · intro hall j hj
        rw [trunc_candidate_shift]
        exact hall (j + 1) (Nat.succ_lt_succ hj)

/-! ### Value sanitization (`_sanitize_to_unicode`) -/

/-- The Python values `_sanitize_to_unicode` (handlers.py lines 351-372)
dispatches on: dictionaries, lists/tuples, booleans, byte strings, text,
and everything else JSON-native that falls through (represented by `int`). -/
inductive PyVal where
  | str : String → PyVal
  | bytes : List Nat → PyVal
  | bool : Bool → PyVal
  | int : Int → PyVal
  | list : List PyVal → PyVal
  | dict : List (PyVal × PyVal) → PyVal

mutual
/-- Embedding of `BaseGELFHandler._sanitize_to_unicode` (handlers.py lines
351-372): recurse into dictionaries (keys and values) and lists, turn a
boolean into `str(obj)` (`"True"` / `"False"`), decode bytes with
`bytes.decode("utf-8", errors="replace")` (the external decoder is the
parameter `dec`), and return everything else unchanged. -/
def pyval_sanitize (dec : List Nat → String) : PyVal → PyVal
  | PyVal.dict kvs => PyVal.dict (pyval_sanitize_pairs dec kvs)
  | PyVal.list xs => PyVal.list (pyval_sanitize_list dec xs)
  | PyVal.bool b => PyVal.str (if b then "True" else "False")
  | PyVal.bytes bs => PyVal.str (dec bs)
  | PyVal.str s => PyVal.str s
  | PyVal.int n => PyVal.int n

/-- The list comprehension of `_sanitize_to_unicode` over list elements. -/
def pyval_sanitize_list (dec : List Nat → String) : List PyVal → List PyVal
  | [] => []
  | x :: xs => pyval_sanitize dec x :: pyval_sanitize_list dec xs

/-- The generator of `_sanitize_to_unicode` over dictionary items
(both keys and values are sanitized). -/
def pyval_sanitize_pairs (dec : List Nat → String) :
    List (PyVal × PyVal) → List (PyVal × PyVal)
  | [] => []
  | (k, v) :: kvs =>
    (pyval_sanitize dec k, pyval_sanitize dec v) :: pyval_sanitize_pairs dec kvs
end

mutual
/-- Whether a Python boolean occurs anywhere inside a value, at any nesting
depth, including as a dictionary key. -/
def pyval_has_bool : PyVal → Bool
  | PyVal.dict kvs => pyval_pairs_have_bool kvs
  | PyVal.list xs => pyval_list_has_bool xs
  | PyVal.bool _ => true
  | PyVal.bytes _ => false
  | PyVal.str _ => false
  | PyVal.int _ => false

/-- `pyval_has_bool` over the elements of a list. -/
def pyval_list_has_bool : List PyVal → Bool
  | [] => false
  | x :: xs => pyval_has_bool x || pyval_list_has_bool xs

/-- `pyval_has_bool` over the keys and values of a dictionary. -/
def pyval_pairs_have_bool : List (PyVal × PyVal) → Bool
  | [] => false
  | (k, v) :: kvs =>
    pyval_has_bool k || pyval_has_bool v || pyval_pairs_have_bool kvs
end

mutual
theorem pyval_sanitize_no_bool (dec : List Nat → String) :
    ∀ v : PyVal, pyval_has_bool (pyval_sanitize dec v) = false
  | PyVal.dict kvs => by
    rw [pyval_sanitize, pyval_has_bool]
    exact pyval_sanitize_pairs_no_bool dec kvs
  | PyVal.list xs => by
    rw [pyval_sanitize, pyval_has_bool]
    exact pyval_sanitize_list_no_bool dec xs
  | PyVal.bool b => by rw [pyval_sanitize, pyval_has_bool]
  | PyVal.bytes bs => by rw [pyval_sanitize, pyval_has_bool]
  | PyVal.str s => by rw [pyval_sanitize, pyval_has_bool]
  | PyVal.int n => by rw [pyval_sanitize, pyval_has_bool]

theorem pyval_sanitize_list_no_bool (dec : List Nat → String) :
    ∀ xs : List PyVal, pyval_list_has_bool (pyval_sanitize_list dec xs) = false
  | [] => by rw [pyval_sanitize_list, pyval_list_has_bool]
  | x :: xs => by
    rw [pyval_sanitize_list, pyval_list_has_bool,
      pyval_sanitize_no_bool dec x, pyval_sanitize_list_no_bool dec xs]
    rfl

theorem pyval_sanitize_pairs_no_bool (dec : List Nat → String) :
    ∀ kvs : List (PyVal × PyVal),
      pyval_pairs_have_bool (pyval_sanitize_pairs dec kvs) = false
  | [] => by rw [pyval_sanitize_pairs, pyval_pairs_have_bool]
  | (k, v) :: kvs => by
    rw [pyval_sanitize_pairs, pyval_pairs_have_bool,
      pyval_sanitize_no_bool dec k, pyval_sanitize_no_bool dec v,
      pyval_sanitize_pairs_no_bool dec kvs]
    rfl
end

/-- Lookup of a string key in a Python dictionary value. -/
def pyval_dict_lookup_str (kvs : List (PyVal × PyVal)) (key : String) :
    Option PyVal :=
  match kvs with
  | [] => none
  | (PyVal.str s, v) :: rest =>
    if s = key then some v else pyval_dict_lookup_str rest key
  | _ :: rest => pyval_dict_lookup_str rest key

/-- The `simplified_gelf_dict` of handlers.py lines 539-547 as the Python
dictionary value handed to the packer (`_pack_gelf_dict` sanitizes it and
JSON-encodes it, handlers.py lines 347-348). -/
def SimplifiedGELFDoc.toPyVal (d : SimplifiedGELFDoc) : PyVal :=
  PyVal.dict
    [(PyVal.str "version", PyVal.str d.version),
     (PyVal.str "host", PyVal.str d.host),
     (PyVal.str "short_message", PyVal.str (String.mk d.short_message)),
     (PyVal.str "timestamp", PyVal.int d.timestamp),
     (PyVal.str "level", PyVal.int d.level),
     (PyVal.str "facility", PyVal.str d.facility),
     (PyVal.str "_chunk_overflow", PyVal.bool d.chunk_overflow)]

/-! ### Claim theorems -/

/-- C5: for every log record, the `level` field of the emitted GELF document
is the syslog severity given by the fixed table critical(50)→2, error(40)→3,
warning(30)→4, info(20)→6, debug(10)→7, and a record whose numeric level has
no table entry keeps its native numeric level unchanged. -/
theorem C5_severity_mapping :
    (∀ r : LogRecord,
      (r.levelno = 50 → (make_gelf_dict_core r).level = 2)
      ∧ (r.levelno = 40 → (make_gelf_dict_core r).level = 3)
      ∧ (r.levelno = 30 → (make_gelf_dict_core r).level = 4)
      ∧ (r.levelno = 20 → (make_gelf_dict_core r).level = 6)
      ∧ (r.levelno = 10 → (make_gelf_dict_core r).level = 7))
    ∧ (∀ r : LogRecord, r.levelno ≠ 50 → r.levelno ≠ 40 → r.levelno ≠ 30 →
        r.levelno ≠ 20 → r.levelno ≠ 10 →
        (make_gelf_dict_core r).level = r.levelno) := by
  constructor
  · intro r
    refine ⟨?_, ?_, ?_, ?_, ?_⟩ <;> intro h <;>
      simp [make_gelf_dict_core, SYSLOG_LEVELS_get, h]
  · intro r h50 h40 h30 h20 h10
    simp [make_gelf_dict_core, SYSLOG_LEVELS_get, h50, h40, h30, h20, h10]

/-- Witness for C5 at the concrete levels 50 (critical) and 99 (unmapped). -/
theorem C5_severity_mapping_witness :
    (make_gelf_dict_core ⟨50, none, none⟩).level = 2
    ∧ (make_gelf_dict_core ⟨99, none, none⟩).level = 99 :=
  ⟨(C5_severity_mapping.1 ⟨50, none, none⟩).1 rfl,
    C5_severity_mapping.2 ⟨99, none, none⟩ (by decide) (by decide) (by decide)
      (by decide) (by decide)⟩

/-- C6: a record with no `exc_info` and no (truthy) `exc_text` emits no
`full_message` key; a record carrying traceback information (truthy
`exc_text`, or `exc_info` whose formatted text is non-empty) emits a
non-empty `full_message`; a truthy pre-formatted `exc_text` is used in
preference to formatting `exc_info`. -/
theorem C6_full_message (r : LogRecord) :
    (r.exc_fmt = none → pyStrTruthy r.exc_text = false →
      (make_gelf_dict_core r).full_message = none)
    ∧ ((pyStrTruthy r.exc_text = true ∨ ∃ f, r.exc_fmt = some f ∧ f ≠ "") →
        ∃ s, (make_gelf_dict_core r).full_message = some s ∧ s ≠ "")
    ∧ (pyStrTruthy r.exc_text = true →
        (make_gelf_dict_core r).full_message = r.exc_text) := by
  have hcore : (make_gelf_dict_core r).full_message = add_full_message r := rfl
  have h3 : pyStrTruthy r.exc_text = true →
      (make_gelf_dict_core r).full_message = r.exc_text := by
    intro htext
    rcases ht : r.exc_text with _ | t
    · rw [ht] at htext
      simp [pyStrTruthy] at htext
    · have htne : t ≠ "" := by
        rw [ht] at htext
        simpa [pyStrTruthy] using htext
      rw [hcore, add_full_message, ht]
      simp [pyStrTruthy, htne]
  refine ⟨?_, ?_, h3⟩
  · intro hfmt htext
    rw [hcore, add_full_message, hfmt, htext]
    simp
  · intro h
    by_cases htext : pyStrTruthy r.exc_text = true
    · rcases ht : r.exc_text with _ | t
      · rw [ht] at htext
        simp [pyStrTruthy] at htext
      · have htne : t ≠ "" := by
          rw [ht] at htext
          simpa [pyStrTruthy] using htext
        exact ⟨t, by rw [h3 htext, ht], htne⟩
    · rcases h with h | ⟨f, hfmt, hf⟩
      · exact absurd h htext
      · have htext2 : pyStrTruthy r.exc_text = false := by
          simpa using htext
        refine ⟨f, ?_, hf⟩
        rw [hcore, add_full_message, hfmt, htext2]
        simp [pyStrTruthy, hf]

/-- Witness for C6: no traceback info gives no `full_message`; formatted
`exc_info` gives a non-empty `full_message`; `exc_text` takes preference. -/
theorem C6_full_message_witness :
    (make_gelf_dict_core ⟨40, none, none⟩).full_message = none
    ∧ (∃ s, (make_gelf_dict_core ⟨40, some "tb", none⟩).full_message = some s ∧ s ≠ "")
    ∧ (make_gelf_dict_core ⟨40, some "tb", some "pre"⟩).full_message = some "pre" :=
  ⟨(C6_full_message ⟨40, none, none⟩).1 rfl rfl,
    (C6_full_message ⟨40, some "tb", none⟩).2.1 (Or.inr ⟨"tb", rfl, by decide⟩),
    (C6_full_message ⟨40, some "tb", some "pre"⟩).2.2 (by decide)⟩

/-- C8 counterexample: the claim says `fqdn = true` together with ANY
non-null `localname` raises at construction time, but the source guard
`if fqdn and localname` uses Python truthiness, so the non-null empty
string `localname = ""` is accepted without error. -/
theorem C8_counterexample :
    (some "" : Option String) ≠ none
    ∧ BaseGELFHandler_init_check true (some "") = Except.ok () := by
  refine ⟨by decide, ?_⟩
  rw [BaseGELFHandler_init_check]
  simp [pyStrTruthy]

/-- C8 amended: constructing with `fqdn = true` and a truthy (non-null,
non-empty) `localname` fails with a `ValueError` at construction time, and
constructing a `GELFTLSHandler` with `validate = true` and `ca_certs = None`
fails likewise, whatever the other certificate options. -/
theorem C8_amended :
    (∀ s : String, s ≠ "" →
      BaseGELFHandler_init_check true (some s)
        = Except.error "cannot specify fqdn and localname arguments together")
    ∧ (∀ certfile keyfile : Option String,
      GELFTLSHandler_init_check true none certfile keyfile
        = Except.error "CA bundle file path must be specified") := by
  constructor
  · intro s hs
    rw [BaseGELFHandler_init_check]
    simp [pyStrTruthy, hs]
  · intro certfile keyfile
    rw [GELFTLSHandler_init_check]
    simp

/-- Witness for C8 amended at the concrete localname `"graylog"`. -/
theorem C8_amended_witness :
    ("graylog" ≠ "")
    ∧ BaseGELFHandler_init_check true (some "graylog")
        = Except.error "cannot specify fqdn and localname arguments together"
    ∧ GELFTLSHandler_init_check true none none none
        = Except.error "CA bundle file path must be specified" :=
  ⟨by decide, C8_amended.1 "graylog" (by decide), C8_amended.2 none none⟩

/-- C4 counterexample: a packed message of exactly `chunk_size` bytes fits
within one chunk (`message_chunk_number = 1`), yet `GELFUDPHandler.send`
does NOT transmit it unframed: the guard `len(s) < chunk_size` is strict,
so the message is handed to the chunker. -/
theorem C4_counterexample :
    message_chunk_number 4 [0, 0, 0, 0] = 1
    ∧ GELFUDPHandler_send 4 0 [0, 0, 0, 0]
        ≠ UDPSendAction.unframed [0, 0, 0, 0]
    ∧ GELFUDPHandler_send 4 0 [0, 0, 0, 0]
        = UDPSendAction.chunked (GELFWarningChunker_chunk_message 4 0 [0, 0, 0, 0]) := by
  refine ⟨rfl, by decide, ?_⟩
  rw [GELFUDPHandler_send]
  simp

/-- C4 amended: `GELFUDPHandler.send` transmits the packed bytes unframed
exactly when they are strictly shorter than the configured chunk size; any
message of at least `chunk_size` bytes is passed to the chunker and sent as
its framed chunks. -/
theorem C4_amended (chunk_size message_id : Nat) (s : List Nat) :
    (GELFUDPHandler_send chunk_size message_id s = UDPSendAction.unframed s
      ↔ s.length < chunk_size)
    ∧ (chunk_size ≤ s.length →
        GELFUDPHandler_send chunk_size message_id s
          = UDPSendAction.chunked
              (GELFWarningChunker_chunk_message chunk_size message_id s)) := by
  constructor
  · constructor
    · intro h
      by_contra hlen
      rw [GELFUDPHandler_send, if_neg hlen] at h
      exact UDPSendAction.noConfusion h
    · intro h
      rw [GELFUDPHandler_send, if_pos h]
  · intro h
    rw [GELFUDPHandler_send, if_neg (Nat.not_lt.mpr h)]

/-- Witness for C4 amended: a 1-byte message with chunk size 2 goes out
unframed; a 2-byte message with chunk size 2 goes to the chunker. -/
theorem C4_amended_witness :
    GELFUDPHandler_send 2 0 [5] = UDPSendAction.unframed [5]
    ∧ (2 ≤ [5, 6].length
        ∧ GELFUDPHandler_send 2 0 [5, 6]
            = UDPSendAction.chunked (GELFWarningChunker_chunk_message 2 0 [5, 6])) :=
  ⟨(C4_amended 2 0 [5]).1.mpr (by decide),
    ⟨by decide, (C4_amended 2 0 [5, 6]).2 (by decide)⟩⟩

/-- C9: for every message whose chunk count is at most 128, all three
chunker policies, configured with the same chunk size and given the same
random message-identifier draw, emit identical chunk sequences, namely the
shared `_gen_gelf_chunks` frames. -/
theorem C9_policy_agreement (chunk_size message_id : Nat) (message : List Nat)
    (packer : SimplifiedGELFDoc → List Nat) (parse : List Nat → GELFParsedDoc)
    (hS : 0 < chunk_size)
    (hle : message_chunk_number chunk_size message ≤ GELF_MAX_CHUNK_NUMBER) :
    (BaseGELFChunker_chunk_message chunk_size message_id message).2
        = gen_gelf_chunks chunk_size message_id message
    ∧ (GELFWarningChunker_chunk_message chunk_size message_id message).2
        = gen_gelf_chunks chunk_size message_id message
    ∧ (GELFTruncatingChunker_chunk_message chunk_size packer parse message_id message).2
        = gen_gelf_chunks chunk_size message_id message := by
  have hguard : ¬ message_chunk_number chunk_size message > GELF_MAX_CHUNK_NUMBER :=
    Nat.not_lt.mpr hle
  refine ⟨?_, ?_, ?_⟩ <;>
    simp [BaseGELFChunker_chunk_message, GELFWarningChunker_chunk_message,
      GELFTruncatingChunker_chunk_message, hguard]

/-- Witness for C9 on a 3-byte message with chunk size 2 (2 chunks). -/
theorem C9_policy_agreement_witness :
    0 < 2 ∧ message_chunk_number 2 [1, 2, 3] ≤ GELF_MAX_CHUNK_NUMBER
    ∧ ((BaseGELFChunker_chunk_message 2 9 [1, 2, 3]).2
          = gen_gelf_chunks 2 9 [1, 2, 3]
      ∧ (GELFWarningChunker_chunk_message 2 9 [1, 2, 3]).2
          = gen_gelf_chunks 2 9 [1, 2, 3]
      ∧ (GELFTruncatingChunker_chunk_message 2 (fun _ => []) (fun _ => ⟨"", "", [], 0, ""⟩) 9 [1, 2, 3]).2
          = gen_gelf_chunks 2 9 [1, 2, 3]) :=
  ⟨by decide, by decide,
    C9_policy_agreement 2 9 [1, 2, 3] (fun _ => []) (fun _ => ⟨"", "", [], 0, ""⟩)
      (by decide) (by decide)⟩

/-- C10: sanitization turns every Python boolean, at any nesting depth and
also as a dictionary key, into the capitalized string `str(obj)`
(`"True"` / `"False"`), so no JSON-native boolean survives to the JSON
encoder; in particular the `_chunk_overflow` marker of the simplified
overflow document is serialized as the JSON string `"True"`. -/
theorem C10_boolean_stringification (dec : List Nat → String) :
    (∀ b : Bool, pyval_sanitize dec (PyVal.bool b)
        = PyVal.str (if b then "True" else "False"))
    ∧ (∀ v : PyVal, pyval_has_bool (pyval_sanitize dec v) = false)
    ∧ (∀ g : GELFParsedDoc, ∃ kvs,
        pyval_sanitize dec (SimplifiedGELFDoc.toPyVal (mk_simplified_gelf_dict g))
          = PyVal.dict kvs
        ∧ pyval_dict_lookup_str kvs "_chunk_overflow" = some (PyVal.str "True")) := by
  refine ⟨fun b => rfl, pyval_sanitize_no_bool dec, ?_⟩
  intro g
  refine ⟨pyval_sanitize_pairs dec _, rfl, ?_⟩
  rfl

/-- C1: for a message of `n = ceil(len/chunk_size)` chunks with
`1 ≤ n ≤ 128`, `chunk_message` emits exactly `n` chunks; the `k`-th emitted
frame carries sequence-index byte `k` (offset 10), total-chunk-count byte `n`
(offset 11), and the shared 8-byte message identifier (offsets 2-9); each
payload (the frame after the 12 header bytes) is at most `chunk_size` bytes;
and the payloads concatenated in emission order are the original message. -/
theorem C1_chunk_codec (chunk_size message_id : Nat) (message : List Nat)
    (hS : 0 < chunk_size)
    (h1 : 1 ≤ message_chunk_number chunk_size message)
    (h128 : message_chunk_number chunk_size message ≤ GELF_MAX_CHUNK_NUMBER) :
    ∀ chunks, chunks = (BaseGELFChunker_chunk_message chunk_size message_id message).2 →
      chunks.length = message_chunk_number chunk_size message
      ∧ (∀ k, (hk : k < chunks.length) →
          (chunks[k]).get? 10 = some k
          ∧ (chunks[k]).get? 11 = some (message_chunk_number chunk_size message)
          ∧ ((chunks[k]).drop 2).take 8 = packQ message_id
          ∧ ((chunks[k]).drop 12).length ≤ chunk_size)
      ∧ (chunks.map (fun c => c.drop 12)).flatten = message := by
  intro chunks hchunks
  have hguard : ¬ message_chunk_number chunk_size message > GELF_MAX_CHUNK_NUMBER :=
    Nat.not_lt.mpr h128
  have hchunks2 : chunks = gen_gelf_chunks chunk_size message_id message := by
    rw [hchunks, BaseGELFChunker_chunk_message, if_neg hguard]
  subst hchunks2
  refine ⟨gen_gelf_chunks_length _ _ _, ?_, ?_⟩
  · intro k hk
    rw [gen_gelf_chunks_getElem chunk_size message_id message k hk]
    refine ⟨gelf_chunk_encode_getq10 _ _ _ _, gelf_chunk_encode_getq11 _ _ _ _,
      gelf_chunk_encode_drop2_take8 _ _ _ _, ?_⟩
    rw [gelf_chunk_encode_drop12, List.length_take]
    exact min_le_left _ _
  · rw [gen_gelf_chunks_payloads]
    exact message_slices_flatten chunk_size hS message.length message le_rfl

/-- Witness for C1 on the 3-byte message `[1, 2, 3]` with chunk size 2
(2 chunks) and message identifier 772. -/
theorem C1_chunk_codec_witness :
    0 < 2 ∧ 1 ≤ message_chunk_number 2 [1, 2, 3]
    ∧ message_chunk_number 2 [1, 2, 3] ≤ GELF_MAX_CHUNK_NUMBER
    ∧ ∀ chunks, chunks = (BaseGELFChunker_chunk_message 2 772 [1, 2, 3]).2 →
        chunks.length = message_chunk_number 2 [1, 2, 3]
        ∧ (∀ k, (hk : k < chunks.length) →
            (chunks[k]).get? 10 = some k
            ∧ (chunks[k]).get? 11 = some (message_chunk_number 2 [1, 2, 3])
            ∧ ((chunks[k]).drop 2).take 8 = packQ 772
            ∧ ((chunks[k]).drop 12).length ≤ 2)
        ∧ (chunks.map (fun c => c.drop 12)).flatten = [1, 2, 3] :=
  ⟨by decide, by decide, by decide,
    C1_chunk_codec 2 772 [1, 2, 3] (by decide) (by decide) (by decide)⟩

/-- C2: for a message whose chunk count exceeds 128, the silent-drop policy
emits no chunk and no warning; the warn-and-drop policy emits no chunk and
exactly one overflow warning; the warn-and-truncate policy either emits the
chunks of a truncated replacement message whose recomputed chunk count is at
most 128 (after one overflow warning), or, when truncation fails, emits no
chunk and exactly two warnings, overflow then truncation-failure. -/
theorem C2_overflow_policies (chunk_size message_id : Nat) (message : List Nat)
    (packer : SimplifiedGELFDoc → List Nat) (parse : List Nat → GELFParsedDoc)
    (hover : message_chunk_number chunk_size message > GELF_MAX_CHUNK_NUMBER) :
    BaseGELFChunker_chunk_message chunk_size message_id message = ([], [])
    ∧ GELFWarningChunker_chunk_message chunk_size message_id message
        = ([GELFWarningKind.chunkOverflow], [])
    ∧ ((∃ m, gen_chunk_overflow_gelf_log chunk_size packer (parse message) = some m
          ∧ message_chunk_number chunk_size m ≤ GELF_MAX_CHUNK_NUMBER
          ∧ GELFTruncatingChunker_chunk_message chunk_size packer parse message_id message
              = ([GELFWarningKind.chunkOverflow], gen_gelf_chunks chunk_size message_id m))
      ∨ (gen_chunk_overflow_gelf_log chunk_size packer (parse message) = none
          ∧ GELFTruncatingChunker_chunk_message chunk_size packer parse message_id message
              = ([GELFWarningKind.chunkOverflow, GELFWarningKind.truncationFailure], []))) := by
  refine ⟨?_, ?_, ?_⟩
  · rw [BaseGELFChunker_chunk_message, if_pos hover]
  · rw [GELFWarningChunker_chunk_message, if_pos hover]
  · cases hlog : gen_chunk_overflow_gelf_log chunk_size packer (parse message) with
    | some m =>
      left
      have hlog2 := hlog
      rw [gen_chunk_overflow_gelf_log] at hlog2
      obtain ⟨j, _, hm, hle, _⟩ :=
        (truncation_loop_some_iff chunk_size packer
          (mk_simplified_gelf_dict (parse message)) _ _ m).mp hlog2
      refine ⟨m, rfl, hm ▸ hle, ?_⟩
      rw [GELFTruncatingChunker_chunk_message, if_pos hover, hlog]
    | none =>
      right
      refine ⟨rfl, ?_⟩
      rw [GELFTruncatingChunker_chunk_message, if_pos hover, hlog]

set_option maxRecDepth 4000 in
/-- Witness for C2 on a 129-byte message with chunk size 1 (129 chunks),
a packer producing the empty packed envelope (so truncation succeeds
immediately) and a trivial parse. -/
theorem C2_overflow_policies_witness :
    message_chunk_number 1 (List.replicate 129 0) > GELF_MAX_CHUNK_NUMBER
    ∧ (BaseGELFChunker_chunk_message 1 0 (List.replicate 129 0) = ([], [])
      ∧ GELFWarningChunker_chunk_message 1 0 (List.replicate 129 0)
          = ([GELFWarningKind.chunkOverflow], [])
      ∧ ((∃ m, gen_chunk_overflow_gelf_log 1 (fun _ => [])
              ((fun _ => (⟨"", "", [], 0, ""⟩ : GELFParsedDoc)) (List.replicate 129 0)) = some m
            ∧ message_chunk_number 1 m ≤ GELF_MAX_CHUNK_NUMBER
            ∧ GELFTruncatingChunker_chunk_message 1 (fun _ => [])
                (fun _ => ⟨"", "", [], 0, ""⟩) 0 (List.replicate 129 0)
                = ([GELFWarningKind.chunkOverflow], gen_gelf_chunks 1 0 m))
        ∨ (gen_chunk_overflow_gelf_log 1 (fun _ => [])
              ((fun _ => (⟨"", "", [], 0, ""⟩ : GELFParsedDoc)) (List.replicate 129 0)) = none
            ∧ GELFTruncatingChunker_chunk_message 1 (fun _ => [])
                (fun _ => ⟨"", "", [], 0, ""⟩) 0 (List.replicate 129 0)
                = ([GELFWarningKind.chunkOverflow, GELFWarningKind.truncationFailure], [])))) :=
  ⟨by decide,
    C2_overflow_policies 1 0 (List.replicate 129 0) (fun _ => [])
      (fun _ => ⟨"", "", [], 0, ""⟩) (by decide)⟩

/-- Every chunk of `_gen_gelf_chunks` has the full GELF frame layout. -/
theorem gen_gelf_chunks_frame (S mid : Nat) (m : List Nat)
    (hle : message_chunk_number S m ≤ GELF_MAX_CHUNK_NUMBER) :
    ∀ c ∈ gen_gelf_chunks S mid m, ∃ seq total payload,
      c = [0x1e, 0x0f] ++ packQ mid ++ [seq] ++ [total] ++ payload
      ∧ c.take 2 = [0x1e, 0x0f]
      ∧ (c.drop 2).take 8 = packQ mid
      ∧ (packQ mid).length = 8
      ∧ (∀ b ∈ packQ mid, b < 256)
      ∧ c.get? 10 = some seq
      ∧ c.get? 11 = some total
      ∧ c.drop 12 = payload
      ∧ c.length = payload.length + 12
      ∧ seq < total ∧ total ≤ GELF_MAX_CHUNK_NUMBER
      ∧ payload.length ≤ S := by
  intro c hc
  obtain ⟨seq, hseq, rfl⟩ := gen_gelf_chunks_mem S mid m c hc
  refine ⟨seq, message_chunk_number S m, (m.drop (seq * S)).take S,
    rfl, gelf_chunk_encode_take2 _ _ _ _, gelf_chunk_encode_drop2_take8 _ _ _ _,
    packQ_length mid, packQ_bytes mid,
    gelf_chunk_encode_getq10 _ _ _ _, gelf_chunk_encode_getq11 _ _ _ _,
    gelf_chunk_encode_drop12 _ _ _ _, ?_, hseq, hle, ?_⟩
  · rw [gelf_chunk_encode_length]
  · rw [List.length_take]
    exact min_le_left _ _

/-- C7: every chunk emitted by any of the three chunker policies is framed
as exactly the 2-byte magic prefix `0x1E 0x0F`, the 8-byte message
identifier at offset 2, the 1-byte sequence index at offset 10, the 1-byte
total-chunk-count at offset 11, then the payload slice; every frame is
exactly 12 bytes longer than its payload. -/
theorem C7_frame_layout (chunk_size message_id : Nat) (message : List Nat)
    (packer : SimplifiedGELFDoc → List Nat) (parse : List Nat → GELFParsedDoc)
    (policy_chunks : List (List Nat))
    (hpolicy :
      policy_chunks = (BaseGELFChunker_chunk_message chunk_size message_id message).2
      ∨ policy_chunks = (GELFWarningChunker_chunk_message chunk_size message_id message).2
      ∨ policy_chunks
          = (GELFTruncatingChunker_chunk_message chunk_size packer parse message_id message).2) :
    ∀ c ∈ policy_chunks, ∃ seq total payload,
      c = [0x1e, 0x0f] ++ packQ message_id ++ [seq] ++ [total] ++ payload
      ∧ c.take 2 = [0x1e, 0x0f]
      ∧ (c.drop 2).take 8 = packQ message_id
      ∧ (packQ message_id).length = 8
      ∧ (∀ b ∈ packQ message_id, b < 256)
      ∧ c.get? 10 = some seq
      ∧ c.get? 11 = some total
      ∧ c.drop 12 = payload
      ∧ c.length = payload.length + 12
      ∧ seq < total ∧ total ≤ GELF_MAX_CHUNK_NUMBER
      ∧ payload.length ≤ chunk_size := by
  intro c hc
  rcases hpolicy with hpc | hpc | hpc <;> subst hpc
  · by_cases h : message_chunk_number chunk_size message > GELF_MAX_CHUNK_NUMBER
    · rw [BaseGELFChunker_chunk_message, if_pos h] at hc
      simp at hc
    · rw [BaseGELFChunker_chunk_message, if_neg h] at hc
      exact gen_gelf_chunks_frame chunk_size message_id message (Nat.not_lt.mp h) c hc
  · by_cases h : message_chunk_number chunk_size message > GELF_MAX_CHUNK_NUMBER
    · rw [GELFWarningChunker_chunk_message, if_pos h] at hc
      simp at hc
    · rw [GELFWarningChunker_chunk_message, if_neg h] at hc
      exact gen_gelf_chunks_frame chunk_size message_id message (Nat.not_lt.mp h) c hc
  · by_cases h : message_chunk_number chunk_size message > GELF_MAX_CHUNK_NUMBER
    · rw [GELFTruncatingChunker_chunk_message, if_pos h] at hc
      cases hlog : gen_chunk_overflow_gelf_log chunk_size packer (parse message) with
      | some m =>
        rw [hlog] at hc
        have hlog2 := hlog
        rw [gen_chunk_overflow_gelf_log] at hlog2
        obtain ⟨j, _, hm, hle2, _⟩ :=
          (truncation_loop_some_iff chunk_size packer
            (mk_simplified_gelf_dict (parse message)) _ _ m).mp hlog2
        exact gen_gelf_chunks_frame chunk_size message_id m (hm ▸ hle2) c hc
      | none =>
        rw [hlog] at hc
        simp at hc
    · rw [GELFTruncatingChunker_chunk_message, if_neg h] at hc
      exact gen_gelf_chunks_frame chunk_size message_id message (Nat.not_lt.mp h) c hc

/-- Witness for C7 at the first chunk emitted by the warn-and-drop policy
for the 3-byte message `[1, 2, 3]` with chunk size 2. -/
theorem C7_frame_layout_witness :
    ∃ seq total payload,
      gelf_chunk_encode 772 0 2 [1, 2]
          = [0x1e, 0x0f] ++ packQ 772 ++ [seq] ++ [total] ++ payload
      ∧ (gelf_chunk_encode 772 0 2 [1, 2]).get? 10 = some seq
      ∧ (gelf_chunk_encode 772 0 2 [1, 2]).get? 11 = some total
      ∧ (gelf_chunk_encode 772 0 2 [1, 2]).length = payload.length + 12
      ∧ seq < total ∧ total ≤ GELF_MAX_CHUNK_NUMBER
      ∧ payload.length ≤ 2 := by
  obtain ⟨seq, total, payload, h1, h2, h3, h4, h5, h6, h7, h8, h9, h10, h11, h12⟩ :=
    C7_frame_layout 2 772 [1, 2, 3] (fun _ => []) (fun _ => ⟨"", "", [], 0, ""⟩)
      (GELFWarningChunker_chunk_message 2 772 [1, 2, 3]).2 (Or.inr (Or.inl rfl))
      (gelf_chunk_encode 772 0 2 [1, 2]) (by decide)
  exact ⟨seq, total, payload, h1, h6, h7, h9, h10, h11, h12⟩

/-- C3: the warn-and-truncate recovery builds a simplified document copying
`version`, `host`, `timestamp`, `facility` from the original, forcing
`level` to syslog error severity 3, adding the marker `_chunk_overflow =
true`, and starting with an empty `short_message`; when the free-chunk
estimate is non-negative, it takes at most that many chunks' worth
(`chunk_size * gelf_chunks_free` characters) of the original
`short_message`; it iterates from the free-chunk estimate down to zero,
shrinking the candidate by `chunk_size` characters per failed attempt,
returns the first repacked message whose chunk count is at most 128, and
fails (raises `GELFTruncationFailureWarning`) exactly when no iteration
succeeds. -/
theorem C3_truncation_recovery (chunk_size : Nat)
    (packer : SimplifiedGELFDoc → List Nat) (g : GELFParsedDoc)
    (hS : 0 < chunk_size) :
    ((mk_simplified_gelf_dict g).version = g.version
      ∧ (mk_simplified_gelf_dict g).host = g.host
      ∧ (mk_simplified_gelf_dict g).timestamp = g.timestamp
      ∧ (mk_simplified_gelf_dict g).facility = g.facility
      ∧ (mk_simplified_gelf_dict g).level = 3
      ∧ (mk_simplified_gelf_dict g).chunk_overflow = true
      ∧ (mk_simplified_gelf_dict g).short_message = [])
    ∧ (0 ≤ gelf_chunks_free chunk_size packer g →
        initial_truncated_short_message chunk_size packer g
            = g.short_message.take ((chunk_size : Int) * gelf_chunks_free chunk_size packer g).toNat
        ∧ ((initial_truncated_short_message chunk_size packer g).length : Int)
            ≤ (chunk_size : Int) * gelf_chunks_free chunk_size packer g)
    ∧ (∀ p, gen_chunk_overflow_gelf_log chunk_size packer g = some p →
        ∃ j, j < (gelf_chunks_free chunk_size packer g + 1).toNat
          ∧ p = packer { mk_simplified_gelf_dict g with
                short_message :=
                  trunc_candidate (initial_truncated_short_message chunk_size packer g)
                    chunk_size j }
          ∧ message_chunk_number chunk_size p ≤ GELF_MAX_CHUNK_NUMBER
          ∧ ∀ i, i < j → GELF_MAX_CHUNK_NUMBER < message_chunk_number chunk_size
              (packer { mk_simplified_gelf_dict g with
                short_message :=
                  trunc_candidate (initial_truncated_short_message chunk_size packer g)
                    chunk_size i }))
    ∧ (gen_chunk_overflow_gelf_log chunk_size packer g = none ↔
        ∀ j, j < (gelf_chunks_free chunk_size packer g + 1).toNat →
          GELF_MAX_CHUNK_NUMBER < message_chunk_number chunk_size
            (packer { mk_simplified_gelf_dict g with
              short_message :=
                trunc_candidate (initial_truncated_short_message chunk_size packer g)
                  chunk_size j })) := by
  have hlevel : SYSLOG_LEVELS_get 40 40 = 3 := by decide
  refine ⟨⟨rfl, rfl, rfl, rfl, hlevel, rfl, rfl⟩, ?_, ?_, ?_⟩
  · intro hfree
    have hc : ¬ ((chunk_size : Int) * gelf_chunks_free chunk_size packer g < 0) :=
      not_lt.mpr (mul_nonneg (Int.ofNat_nonneg chunk_size) hfree)
    constructor
    · rw [initial_truncated_short_message, pySliceUpto, if_neg hc]
    · rw [initial_truncated_short_message, pySliceUpto, if_neg hc, List.length_take]
      have h1 : min ((chunk_size : Int) * gelf_chunks_free chunk_size packer g).toNat
          g.short_message.length
            ≤ ((chunk_size : Int) * gelf_chunks_free chunk_size packer g).toNat :=
        min_le_left _ _
      omega
  · intro p hp
    rw [gen_chunk_overflow_gelf_log] at hp
    exact (truncation_loop_some_iff chunk_size packer (mk_simplified_gelf_dict g)
      _ _ p).mp hp
  · rw [gen_chunk_overflow_gelf_log]
    exact truncation_loop_none_iff chunk_size packer (mk_simplified_gelf_dict g) _ _

/-- Witness for C3 with chunk size 1, a packer producing the empty packed
envelope and a concrete two-character original document. -/
theorem C3_truncation_recovery_witness :
    0 < 1
    ∧ (((mk_simplified_gelf_dict ⟨"1.0", "h1", ['a', 'b'], 7, "app"⟩).version = "1.0"
      ∧ (mk_simplified_gelf_dict ⟨"1.0", "h1", ['a', 'b'], 7, "app"⟩).host = "h1"
      ∧ (mk_simplified_gelf_dict ⟨"1.0", "h1", ['a', 'b'], 7, "app"⟩).timestamp = 7
      ∧ (mk_simplified_gelf_dict ⟨"1.0", "h1", ['a', 'b'], 7, "app"⟩).facility = "app"
      ∧ (mk_simplified_gelf_dict ⟨"1.0", "h1", ['a', 'b'], 7, "app"⟩).level = 3
      ∧ (mk_simplified_gelf_dict ⟨"1.0", "h1", ['a', 'b'], 7, "app"⟩).chunk_overflow = true
      ∧ (mk_simplified_gelf_dict ⟨"1.0", "h1", ['a', 'b'], 7, "app"⟩).short_message = [])
    ∧ (0 ≤ gelf_chunks_free 1 (fun _ => []) ⟨"1.0", "h1", ['a', 'b'], 7, "app"⟩ →
        initial_truncated_short_message 1 (fun _ => []) ⟨"1.0", "h1", ['a', 'b'], 7, "app"⟩
            = (['a', 'b'] : List Char).take
                ((1 : Int) * gelf_chunks_free 1 (fun _ => []) ⟨"1.0", "h1", ['a', 'b'], 7, "app"⟩).toNat
        ∧ ((initial_truncated_short_message 1 (fun _ => [])
              ⟨"1.0", "h1", ['a', 'b'], 7, "app"⟩).length : Int)
            ≤ (1 : Int) * gelf_chunks_free 1 (fun _ => []) ⟨"1.0", "h1", ['a', 'b'], 7, "app"⟩)
    ∧ (∀ p, gen_chunk_overflow_gelf_log 1 (fun _ => []) ⟨"1.0", "h1", ['a', 'b'], 7, "app"⟩
            = some p →
        ∃ j, j < (gelf_chunks_free 1 (fun _ => []) ⟨"1.0", "h1", ['a', 'b'], 7, "app"⟩ + 1).toNat
          ∧ p = (fun (_ : SimplifiedGELFDoc) => ([] : List Nat))
                { mk_simplified_gelf_dict ⟨"1.0", "h1", ['a', 'b'], 7, "app"⟩ with
                  short_message :=
                    trunc_candidate (initial_truncated_short_message 1 (fun _ => [])
                      ⟨"1.0", "h1", ['a', 'b'], 7, "app"⟩) 1 j }
          ∧ message_chunk_number 1 p ≤ GELF_MAX_CHUNK_NUMBER
          ∧ ∀ i, i < j → GELF_MAX_CHUNK_NUMBER < message_chunk_number 1
              ((fun (_ : SimplifiedGELFDoc) => ([] : List Nat))
                { mk_simplified_gelf_dict ⟨"1.0", "h1", ['a', 'b'], 7, "app"⟩ with
                  short_message :=
                    trunc_candidate (initial_truncated_short_message 1 (fun _ => [])
                      ⟨"1.0", "h1", ['a', 'b'], 7, "app"⟩) 1 i }))
    ∧ (gen_chunk_overflow_gelf_log 1 (fun _ => []) ⟨"1.0", "h1", ['a', 'b'], 7, "app"⟩ = none ↔
        ∀ j, j < (gelf_chunks_free 1 (fun _ => []) ⟨"1.0", "h1", ['a', 'b'], 7, "app"⟩ + 1).toNat →
          GELF_MAX_CHUNK_NUMBER < message_chunk_number 1
            ((fun (_ : SimplifiedGELFDoc) => ([] : List Nat))
              { mk_simplified_gelf_dict ⟨"1.0", "h1", ['a', 'b'], 7, "app"⟩ with
                short_message :=
                  trunc_candidate (initial_truncated_short_message 1 (fun _ => [])
                    ⟨"1.0", "h1", ['a', 'b'], 7, "app"⟩) 1 j }))) :=
  ⟨by decide, C3_truncation_recovery 1 (fun _ => []) ⟨"1.0", "h1", ['a', 'b'], 7, "app"⟩ (by decide)⟩

end Graylog
